import Mathlib

/-!
Shallow embedding of `src/src/screen_recorder.cc` (a Node.js native addon
that captures one still image of the primary display).  The three
platform-conditional capture paths, the display query, the global atomic
frame counter and the three exported bindings are translated into plain
Lean definitions; native OS calls (XOpenDisplay, XGetImage, GetDIBits,
CGDataProviderCopyData, ...) are modelled as per-call environment inputs.
Machine `int` arithmetic on the counter is modelled with explicit
two's-complement wraparound at 32 bits.
-/

namespace ScreenRecorder

/-- `struct ScreenDimensions { int width; int height; }` (lines 36-39).
The dimensions reported by the OS are nonnegative, so the two `int`
fields are modelled as `Nat`. -/
structure ScreenDimensions where
  width : Nat
  height : Nat
  deriving DecidableEq

/-- Model of the `XImage` returned by `XGetImage`: the three color masks,
`bits_per_pixel`, and the packed pixel value `XGetPixel` reads at each
coordinate (an arbitrary natural; the source applies the masks to it
unchecked). -/
structure XImage where
  red_mask : Nat
  green_mask : Nat
  blue_mask : Nat
  bits_per_pixel : Nat
  pixel : Nat → Nat → Nat

/-- One decoded pixel of the X11 path (lines 131-135): `(pixel & mask) >> shift`
stored into a `uint8_t` (hence `% 256`), written in R, G, B order. -/
def decodePixel (img : XImage) (x y : Nat) : List Nat :=
  let pixel := img.pixel x y
  [((pixel &&& img.red_mask) >>> 16) % 256,
   ((pixel &&& img.green_mask) >>> 8) % 256,
   (pixel &&& img.blue_mask) % 256]

/-- Blocks 0..n-1 produced by `f`, concatenated in order.  This is the flat
buffer written by a loop that stores block `j` (of uniform length `k`) at
offsets `j*k .. j*k+k-1`. -/
def concatRows (f : Nat → List Nat) : Nat → List Nat
  | 0 => []
  | n + 1 => concatRows f n ++ f n

/-- Variant C capture (X11 path, lines 121-139): the nested y/x loop writes
`decodePixel` at flat index `(y * width + x) * 3` of a buffer resized to
`width * height * 3`. -/
def CaptureScreenFrameX11 (dims : ScreenDimensions) (img : XImage) : List Nat :=
  concatRows
    (fun y => concatRows (fun x => decodePixel img x y) dims.width)
    dims.height

/-- The `BITMAPINFOHEADER` the Win32 path fills (lines 90-101); `BI_RGB` is
the constant 0 and `sizeof(BITMAPINFOHEADER)` is 40. -/
structure BITMAPINFOHEADER where
  biSize : Nat
  biWidth : Int
  biHeight : Int
  biPlanes : Nat
  biBitCount : Nat
  biCompression : Nat
  biSizeImage : Nat
  biXPelsPerMeter : Int
  biYPelsPerMeter : Int
  biClrUsed : Nat
  biClrImportant : Nat
  deriving DecidableEq

/-- The header as assigned field by field in lines 91-101: 24 bits per pixel,
`BI_RGB`, and a negated height (a top-down DIB request). -/
def mkBitmapInfoHeader (dims : ScreenDimensions) : BITMAPINFOHEADER where
  biSize := 40
  biWidth := dims.width
  biHeight := -(dims.height : Int)
  biPlanes := 1
  biBitCount := 24
  biCompression := 0
  biSizeImage := 0
  biXPelsPerMeter := 0
  biYPelsPerMeter := 0
  biClrUsed := 0
  biClrImportant := 0

/-- Line 103: `DWORD dwBmpSize = ((width * biBitCount + 31) / 32) * 4 * height`,
the 4-byte-aligned row stride times the row count. -/
def dwBmpSize (dims : ScreenDimensions) : Nat :=
  (dims.width * (mkBitmapInfoHeader dims).biBitCount + 31) / 32 * 4 * dims.height

/-- The screen contents the Win32 path photographs: the red/green/blue channel
values of the on-screen pixel at each coordinate (top-left origin). -/
structure WinScreen where
  red : Nat → Nat → Nat
  green : Nat → Nat → Nat
  blue : Nat → Nat → Nat

/-- Modelled from the documented behavior of the external `GetDIBits` call for
the header requested by the source (`biBitCount = 24`, `biCompression = BI_RGB`,
`biHeight` negative, i.e. a top-down DIB): byte `i` of the output lies in row
`i / stride`; within the row, pixel `x` occupies bytes `3x .. 3x+2` in
B, G, R order, and the bytes between `3*width` and the stride are alignment
padding.  Channel samples are 8-bit, hence `% 256`. -/
def dibByte (scr : WinScreen) (dims : ScreenDimensions) (i : Nat) : Nat :=
  let stride := (dims.width * 24 + 31) / 32 * 4
  let y := i / stride
  let r := i % stride
  if r < dims.width * 3 then
    if r % 3 = 0 then scr.blue (r / 3) y % 256
    else if r % 3 = 1 then scr.green (r / 3) y % 256
    else scr.red (r / 3) y % 256
  else 0

/-- Variant A capture (Win32 path, lines 83-112): the buffer is resized to
`dwBmpSize` (line 104) and filled by `GetDIBits` (lines 106-107). -/
def CaptureScreenFrameWin32 (dims : ScreenDimensions) (scr : WinScreen) :
    List Nat :=
  List.ofFn (fun i : Fin (dwBmpSize dims) => dibByte scr dims i)

/-- Model of the CoreGraphics image the macOS path obtains: the `CFData`
copied out of the image's data provider (`CGDataProviderCopyData`), as a raw
byte list, next to the pixel dimensions the display reports. -/
structure CGImageData where
  bytes : List Nat
  pixelsWide : Nat
  pixelsHigh : Nat

/-- Variant B capture (macOS path, lines 113-120): the buffer is resized to
`CFDataGetLength(dataRef)` and filled by one `memcpy` of that many bytes, so
it is exactly the provider's data; the queried `ScreenDimensions` are not
consulted at all. -/
def CaptureScreenFrameApple (_dims : ScreenDimensions) (image : CGImageData) :
    List Nat :=
  image.bytes

/-- The crash sites of the source's unchecked native calls: dereferencing the
NULL result of `XOpenDisplay` (lines 69-70, 122-125) or of `XGetImage`
(line 127). -/
inductive CrashCause where
  | nullDisplayDeref
  | nullXImageDeref
  deriving DecidableEq

/-- What a live X connection exposes to this program: the default screen's
`width`/`height` fields (lines 71-72) and the `XGetImage` result for the
full-root-window grab (line 126), `none` when `XGetImage` returns NULL. -/
structure X11Server where
  screenWidth : Nat
  screenHeight : Nat
  image : Option XImage

/-- Per-call native environment of the default (X11) build: the result of
`XOpenDisplay(NULL)`, `none` when the call returns NULL (e.g. no display
server). -/
structure X11Env where
  display : Option X11Server

/-- `Recorder::GetScreenDimensions` (lines 58-77, X11 branch): opens the
display, reads `screen->width` / `screen->height`, closes the display.  A
NULL display is dereferenced unchecked by `DefaultScreenOfDisplay`, which we
model as a crash. -/
def GetScreenDimensionsX11 (env : X11Env) :
    Except CrashCause ScreenDimensions :=
  match env.display with
  | none => .error .nullDisplayDeref
  | some srv => .ok ⟨srv.screenWidth, srv.screenHeight⟩

/-- `Recorder::CaptureScreenFrame` (lines 121-139, X11 branch) including the
crashing failure modes: `DefaultRootWindow` on a NULL display, and
`ximage->bits_per_pixel` on a NULL `XGetImage` result. -/
def CaptureScreenFrameX11E (env : X11Env) (dims : ScreenDimensions) :
    Except CrashCause (List Nat) :=
  match env.display with
  | none => .error .nullDisplayDeref
  | some srv =>
    match srv.image with
    | none => .error .nullXImageDeref
    | some img => .ok (CaptureScreenFrameX11 dims img)

/-- `Recorder::CaptureFrame` (lines 45-48): query the dimensions, then
capture with them; a crash in either step propagates. -/
def CaptureFrame (env : X11Env) : Except CrashCause (List Nat) := do
  let dims ← GetScreenDimensionsX11 env
  CaptureScreenFrameX11E env dims

/-- `frames_count_` is a `std::atomic<int>` (line 145) initialized to 0 by
the constructor `Recorder() : frames_count_(0)` (line 43) of the single
global `g_recorder` (line 149). -/
def initialFramesCount : Int := 0

/-- `IncrementFrameCount` (lines 54-56): `frames_count_++` on a
`std::atomic<int>`, an atomic fetch-and-add of 1 whose result is computed in
the corresponding unsigned type and converted back, i.e. two's-complement
wraparound at 32 bits (2147483648 = 2^31, 4294967296 = 2^32). -/
def IncrementFrameCount (c : Int) : Int :=
  (c + 1 + 2147483648) % 4294967296 - 2147483648

/-- Binding `GetNextFrame` (lines 151-162): capture a frame, then increment
the counter, then return the buffer.  The increment at line 155 runs only
after `CaptureFrame` has returned; a native crash inside the capture
propagates with the counter untouched. -/
def GetNextFrame (env : X11Env) (frames_count : Int) :
    Except CrashCause (List Nat) × Int :=
  match CaptureFrame env with
  | .error e => (.error e, frames_count)
  | .ok frame => (.ok frame, IncrementFrameCount frames_count)

/-- Binding `GetFramesCount` (lines 164-168): returns the counter, leaving it
unchanged. -/
def GetFramesCount (frames_count : Int) : Int × Int :=
  (frames_count, frames_count)

/-- Binding `GetScreenDimensions` (lines 170-183): performs the query on the
per-call environment; the recorder's only state, the counter, is not
touched. -/
def GetScreenDimensionsNode (env : X11Env) (frames_count : Int) :
    Except CrashCause ScreenDimensions × Int :=
  (GetScreenDimensionsX11 env, frames_count)

/-- One exported operation of the addon, together with the native environment
the call runs against. -/
inductive NodeOp where
  | getNextFrame (env : X11Env)
  | getFramesCount
  | getScreenDimensions (env : X11Env)

/-- Effect of one exported call on the counter, the only persistent state. -/
def stepOp (c : Int) : NodeOp → Int
  | .getNextFrame env => (GetNextFrame env c).2
  | .getFramesCount => (GetFramesCount c).2
  | .getScreenDimensions env => (GetScreenDimensionsNode env c).2

/-- Counter after a sequence of exported calls. -/
def runOps (c : Int) (ops : List NodeOp) : Int :=
  ops.foldl stepOp c

/-- Counter value after `n` wrapped increments from 0, in closed form. -/
def wrapCount (n : Nat) : Int :=
  ((n : Int) + 2147483648) % 4294967296 - 2147483648

/-!
Concurrent calls.  A `getNextFrame` call touches shared state exactly once:
the capture works on call-local data, and the only access to
`frames_count_` is the single atomic `frames_count_++` (lines 54-56, 145).
An execution of `K` concurrent calls is therefore determined by the order in
which the threads reach the counter: a schedule, i.e. a permutation of the
thread indices `0 .. K-1`; thread `i` performs its call's counter effect
`(GetNextFrame (envs i) c).2` as one indivisible step.
-/

/-- Counter after the `K` concurrent calls' shared-state steps run in the
order given by `sched`. -/
def runConcurrent (envs : Nat → X11Env) (c : Int) (sched : List Nat) : Int :=
  sched.foldl (fun cc i => (GetNextFrame (envs i) cc).2) c

/-- Number of the `K` concurrent calls whose capture succeeds. -/
def successCount (envs : Nat → X11Env) (K : Nat) : Nat :=
  (List.range K).countP (fun i => (CaptureFrame (envs i)).isOk)

/-!
Resource accounting.  Each native handle the X11 paths can acquire is given
a name, and the capture / query routines are re-traced recording which
handles each execution acquires and releases (`XOpenDisplay` /
`XCloseDisplay`, `XGetImage` / `XDestroyImage`), next to their result.
-/

/-- The native resources the X11 build acquires. -/
inductive NativeHandle where
  | displayConnection
  | ximageData
  deriving DecidableEq

/-- Handles acquired and released during one routine execution, each in
chronological order. -/
structure ResourceTrace where
  acquired : List NativeHandle
  released : List NativeHandle
  deriving DecidableEq

/-- `Recorder::CaptureScreenFrame` (X11 branch) with its resource trace:
* NULL display: nothing was acquired and the routine crashes at
  `DefaultRootWindow` (line 123);
* display open but `XGetImage` NULL: the display connection is acquired and
  the routine crashes at `ximage->bits_per_pixel` (line 127) without ever
  reaching `XCloseDisplay` (line 139) — the connection is not released;
* both available: the image and the display are released in lines 138-139
  and the buffer is returned. -/
def CaptureScreenFrameX11Trace (env : X11Env) (dims : ScreenDimensions) :
    Except CrashCause (List Nat) × ResourceTrace :=
  match env.display with
  | none => (.error .nullDisplayDeref, ⟨[], []⟩)
  | some srv =>
    match srv.image with
    | none => (.error .nullXImageDeref, ⟨[.displayConnection], []⟩)
    | some img =>
      (.ok (CaptureScreenFrameX11 dims img),
       ⟨[.displayConnection, .ximageData],
        [.ximageData, .displayConnection]⟩)

/-- `Recorder::GetScreenDimensions` (X11 branch) with its resource trace:
on success the display is opened, queried and closed (lines 69-73); on a
NULL display nothing was acquired and the routine crashes. -/
def GetScreenDimensionsX11Trace (env : X11Env) :
    Except CrashCause ScreenDimensions × ResourceTrace :=
  match env.display with
  | none => (.error .nullDisplayDeref, ⟨[], []⟩)
  | some srv =>
    (.ok ⟨srv.screenWidth, srv.screenHeight⟩,
     ⟨[.displayConnection], [.displayConnection]⟩)

/-! Concrete fixtures used by witnesses and counterexamples. -/

/-- A trivial 1x1 image on which the X11 capture succeeds. -/
def imgOK : XImage := ⟨0, 0, 0, 32, fun _ _ => 0⟩

/-- An environment in which every native call succeeds: a 1x1 screen whose
grab yields `imgOK`. -/
def envOK : X11Env := ⟨some ⟨1, 1, some imgOK⟩⟩

/-- A 2x2 image with the standard 24-bit masks and distinct pixel values. -/
def imgW : XImage :=
  ⟨0xFF0000, 0xFF00, 0xFF, 32, fun x y => 0x010203 * (1 + x + 2 * y)⟩

/-- A concrete Win32 screen with distinct channel functions. -/
def scrW : WinScreen :=
  ⟨fun x y => 100 + x + y, fun x y => 50 + x + y, fun x y => 10 + x + y⟩

/-! Helper lemmas. -/

lemma concatRows_length (f : Nat → List Nat) (k : Nat)
    (hk : ∀ i, (f i).length = k) : ∀ n, (concatRows f n).length = n * k := by
  intro n
  induction n with
  | zero => simp [concatRows]
  | succ n ih =>
    simp [concatRows, ih, hk n]
    ring

lemma concatRows_getElem? (f : Nat → List Nat) (k : Nat)
    (hk : ∀ i, (f i).length = k) :
    ∀ (n j c i : Nat), j < n → c < k → i = j * k + c →
      (concatRows f n)[i]? = (f j)[c]? := by
  intro n
  induction n with
  | zero => intro j c i hj _ _; exact absurd hj (Nat.not_lt_zero j)
  | succ n ih =>
    intro j c i hj hc hi
    subst hi
    show (concatRows f n ++ f n)[j * k + c]? = (f j)[c]?
    rcases Nat.lt_succ_iff_lt_or_eq.mp hj with hjn | hjn
    · have hlt : j * k + c < (concatRows f n).length := by
        rw [concatRows_length f k hk n]
        have hA : j * k + c < j * k + k := Nat.add_lt_add_left hc _
        have hB : j * k + k = (j + 1) * k := by ring
        have hC : (j + 1) * k ≤ n * k := Nat.mul_le_mul_right k hjn
        omega
      rw [List.getElem?_append_left hlt]
      exact ih j c _ hjn hc rfl
    · rw [hjn]
      have hlen : (concatRows f n).length = n * k := concatRows_length f k hk n
      have hge : (concatRows f n).length ≤ n * k + c := by omega
      rw [List.getElem?_append_right hge, hlen, Nat.add_sub_cancel_left]

lemma decodePixel_length (img : XImage) (x y : Nat) :
    (decodePixel img x y).length = 3 := rfl

lemma captureX11_length (dims : ScreenDimensions) (img : XImage) :
    (CaptureScreenFrameX11 dims img).length =
      dims.width * dims.height * 3 := by
  unfold CaptureScreenFrameX11
  rw [concatRows_length _ (dims.width * 3)
    (fun y => concatRows_length _ 3 (fun x => decodePixel_length img x y) _)]
  ring

lemma captureX11_getElem? (dims : ScreenDimensions) (img : XImage)
    (x y : Nat) (hx : x < dims.width) (hy : y < dims.height) (c : Nat)
    (hc : c < 3) :
    (CaptureScreenFrameX11 dims img)[(y * dims.width + x) * 3 + c]? =
      (decodePixel img x y)[c]? := by
  unfold CaptureScreenFrameX11
  have hrow : ∀ yy,
      (concatRows (fun xx => decodePixel img xx yy) dims.width).length
        = dims.width * 3 :=
    fun yy => concatRows_length _ 3 (fun xx => decodePixel_length img xx yy) _
  have houter := concatRows_getElem?
    (fun yy => concatRows (fun xx => decodePixel img xx yy) dims.width)
    (dims.width * 3) hrow dims.height y (x * 3 + c)
    ((y * dims.width + x) * 3 + c) hy (by omega) (by ring)
  rw [houter]
  exact concatRows_getElem? (fun xx => decodePixel img xx y) 3
    (fun xx => decodePixel_length img xx y) dims.width x c (x * 3 + c)
    hx hc rfl

lemma captureWin32_length (dims : ScreenDimensions) (scr : WinScreen) :
    (CaptureScreenFrameWin32 dims scr).length = dwBmpSize dims :=
  List.length_ofFn _

lemma stride_pos (w : Nat) (hw : 0 < w) : 0 < (w * 24 + 31) / 32 * 4 := by
  omega

lemma width3_le_stride (w : Nat) : w * 3 ≤ (w * 24 + 31) / 32 * 4 := by
  omega

lemma dib_index_bound (stride y h t : Nat) (hy : y < h) (ht : t < stride) :
    y * stride + t < stride * h := by
  have h1 : y * stride + t < (y + 1) * stride := by
    have : (y + 1) * stride = y * stride + stride := by ring
    omega
  have h2 : (y + 1) * stride ≤ h * stride := Nat.mul_le_mul_right stride hy
  have h3 : h * stride = stride * h := Nat.mul_comm h stride
  omega

lemma dibByte_at (scr : WinScreen) (dims : ScreenDimensions) (x y c : Nat)
    (hx : x < dims.width) (hc : c < 3) :
    dibByte scr dims (y * ((dims.width * 24 + 31) / 32 * 4) + (x * 3 + c)) =
      (if c = 0 then scr.blue x y % 256
       else if c = 1 then scr.green x y % 256
       else scr.red x y % 256) := by
  have hst : dims.width * 3 ≤ (dims.width * 24 + 31) / 32 * 4 :=
    width3_le_stride dims.width
  have hpos : 0 < (dims.width * 24 + 31) / 32 * 4 :=
    stride_pos dims.width (by omega)
  have hlt : x * 3 + c < (dims.width * 24 + 31) / 32 * 4 := by omega
  unfold dibByte
  simp only []
  rw [Nat.add_comm (y * ((dims.width * 24 + 31) / 32 * 4)) (x * 3 + c),
    Nat.add_mul_div_right _ _ hpos, Nat.add_mul_mod_self_right,
    Nat.div_eq_of_lt hlt, Nat.mod_eq_of_lt hlt, Nat.zero_add]
  have hr : x * 3 + c < dims.width * 3 := by omega
  rw [if_pos hr]
  have hmod : (x * 3 + c) % 3 = c := by omega
  have hdiv : (x * 3 + c) / 3 = x := by omega
  rw [hmod, hdiv]

lemma captureWin32_getElem? (dims : ScreenDimensions) (scr : WinScreen)
    (x y c : Nat) (hx : x < dims.width) (hy : y < dims.height) (hc : c < 3) :
    (CaptureScreenFrameWin32 dims scr)[y * ((dims.width * 24 + 31) / 32 * 4)
        + (x * 3 + c)]? =
      some (if c = 0 then scr.blue x y % 256
            else if c = 1 then scr.green x y % 256
            else scr.red x y % 256) := by
  have hst : dims.width * 3 ≤ (dims.width * 24 + 31) / 32 * 4 :=
    width3_le_stride dims.width
  have hb : y * ((dims.width * 24 + 31) / 32 * 4) + (x * 3 + c)
      < dwBmpSize dims := by
    have := dib_index_bound ((dims.width * 24 + 31) / 32 * 4) y
      dims.height (x * 3 + c) hy (by omega)
    have h24 : dwBmpSize dims = (dims.width * 24 + 31) / 32 * 4 * dims.height :=
      rfl
    omega
  unfold CaptureScreenFrameWin32
  rw [List.getElem?_eq_getElem (by simpa using hb)]
  rw [List.getElem_ofFn]
  rw [dibByte_at scr dims x y c hx hc]

lemma getNextFrame_fst (env : X11Env) (c : Int) :
    (GetNextFrame env c).1 = CaptureFrame env := by
  unfold GetNextFrame
  cases CaptureFrame env <;> rfl

lemma getNextFrame_of_ok (env : X11Env) (c : Int) (frame : List Nat)
    (h : CaptureFrame env = .ok frame) :
    GetNextFrame env c = (.ok frame, IncrementFrameCount c) := by
  unfold GetNextFrame
  rw [h]

lemma getNextFrame_of_error (env : X11Env) (c : Int) (e : CrashCause)
    (h : CaptureFrame env = .error e) :
    GetNextFrame env c = (.error e, c) := by
  unfold GetNextFrame
  rw [h]

lemma captureFrame_eq (env : X11Env) :
    CaptureFrame env =
      match env.display with
      | none => .error .nullDisplayDeref
      | some srv =>
        match srv.image with
        | none => .error .nullXImageDeref
        | some img =>
          .ok (CaptureScreenFrameX11 ⟨srv.screenWidth, srv.screenHeight⟩ img) := by
  unfold CaptureFrame GetScreenDimensionsX11 CaptureScreenFrameX11E
  cases env.display with
  | none => rfl
  | some srv => cases srv.image <;> rfl

lemma captureFrame_display_some (env : X11Env) (srv : X11Server)
    (h : env.display = some srv) :
    CaptureFrame env =
      match srv.image with
      | none => .error .nullXImageDeref
      | some img =>
        .ok (CaptureScreenFrameX11 ⟨srv.screenWidth, srv.screenHeight⟩ img) := by
  rw [captureFrame_eq, h]

lemma runOps_replicate_capture (env : X11Env)
    (hok : (CaptureFrame env).isOk = true) :
    ∀ (n : Nat) (c : Int),
      runOps c (List.replicate n (NodeOp.getNextFrame env)) =
        IncrementFrameCount^[n] c := by
  obtain ⟨frame, hfr⟩ : ∃ frame, CaptureFrame env = .ok frame := by
    cases h : CaptureFrame env with
    | ok v => exact ⟨v, rfl⟩
    | error e => rw [h] at hok; simp [Except.isOk, Except.toBool] at hok
  intro n
  induction n with
  | zero => intro c; simp [runOps]
  | succ n ih =>
    intro c
    rw [List.replicate_succ]
    show runOps (stepOp c (NodeOp.getNextFrame env))
      (List.replicate n (NodeOp.getNextFrame env)) = _
    rw [Function.iterate_succ_apply]
    have hstep : stepOp c (NodeOp.getNextFrame env) = IncrementFrameCount c := by
      simp [stepOp, getNextFrame_of_ok env c frame hfr]
    rw [hstep]
    exact ih (IncrementFrameCount c)

lemma iterate_increment_from_zero :
    ∀ n : Nat, IncrementFrameCount^[n] 0 = wrapCount n := by
  intro n
  induction n with
  | zero => decide
  | succ n ih =>
    rw [Function.iterate_succ_apply', ih]
    unfold wrapCount IncrementFrameCount
    push_cast
    omega

lemma increment_no_wrap (c : Int) (h1 : -2147483648 ≤ c)
    (h2 : c < 2147483647) : IncrementFrameCount c = c + 1 := by
  unfold IncrementFrameCount
  omega

lemma iterate_increment_no_wrap :
    ∀ (n : Nat) (c : Int), -2147483648 ≤ c → c + n ≤ 2147483647 →
      IncrementFrameCount^[n] c = c + n := by
  intro n
  induction n with
  | zero => intro c _ _; simp
  | succ n ih =>
    intro c h1 h2
    rw [Function.iterate_succ_apply]
    have hc : IncrementFrameCount c = c + 1 := by
      apply increment_no_wrap c h1
      omega
    rw [hc, ih (c + 1) (by omega) (by push_cast at h2; omega)]
    push_cast
    ring

lemma runConcurrent_eq_iterate (envs : Nat → X11Env) :
    ∀ (sched : List Nat) (c : Int),
      runConcurrent envs c sched =
        IncrementFrameCount^[sched.countP
          (fun i => (CaptureFrame (envs i)).isOk)] c := by
  intro sched
  induction sched with
  | nil => intro c; simp [runConcurrent]
  | cons i s ih =>
    intro c
    show runConcurrent envs ((GetNextFrame (envs i) c).2) s = _
    cases h : CaptureFrame (envs i) with
    | ok frame =>
      have hstep : (GetNextFrame (envs i) c).2 = IncrementFrameCount c := by
        rw [getNextFrame_of_ok (envs i) c frame h]
      have hcount : List.countP (fun j => (CaptureFrame (envs j)).isOk) (i :: s)
          = List.countP (fun j => (CaptureFrame (envs j)).isOk) s + 1 := by
        simp [List.countP_cons, h, Except.isOk, Except.toBool]
      rw [hstep, ih, hcount, Function.iterate_succ_apply]
    | error e =>
      have hstep : (GetNextFrame (envs i) c).2 = c := by
        rw [getNextFrame_of_error (envs i) c e h]
      have hcount : List.countP (fun j => (CaptureFrame (envs j)).isOk) (i :: s)
          = List.countP (fun j => (CaptureFrame (envs j)).isOk) s := by
        simp [List.countP_cons, h, Except.isOk, Except.toBool]
      rw [hstep, ih, hcount]

lemma runConcurrent_perm (envs : Nat → X11Env) (K : Nat) (c : Int)
    (sched : List Nat) (hperm : sched.Perm (List.range K)) :
    runConcurrent envs c sched =
      IncrementFrameCount^[successCount envs K] c := by
  rw [runConcurrent_eq_iterate, hperm.countP_eq]
  rfl

/-! Claim theorems. -/

/-- C1: for the Variant C (X11) capture path, for every dimensions input the
returned frame buffer has length exactly `width * height * 3`, rows in
top-down order (the 3 bytes of pixel (x, y) sit at flat index
`(y*width+x)*3`), and each pixel is decoded from the native packed pixel by
bitmask-and-shift against the image's red/green/blue masks, re-packed as
3 bytes per pixel in R-G-B channel order. -/
theorem variantC_normalized_buffer (dims : ScreenDimensions) (img : XImage) :
    (CaptureScreenFrameX11 dims img).length = dims.width * dims.height * 3 ∧
    ∀ x y : Nat, x < dims.width → y < dims.height →
      (CaptureScreenFrameX11 dims img)[(y * dims.width + x) * 3]? =
          some (((img.pixel x y &&& img.red_mask) >>> 16) % 256) ∧
      (CaptureScreenFrameX11 dims img)[(y * dims.width + x) * 3 + 1]? =
          some (((img.pixel x y &&& img.green_mask) >>> 8) % 256) ∧
      (CaptureScreenFrameX11 dims img)[(y * dims.width + x) * 3 + 2]? =
          some ((img.pixel x y &&& img.blue_mask) % 256) := by
  refine ⟨captureX11_length dims img, fun x y hx hy => ⟨?_, ?_, ?_⟩⟩
  · simpa [decodePixel] using
      captureX11_getElem? dims img x y hx hy 0 (by omega)
  · simpa [decodePixel] using
      captureX11_getElem? dims img x y hx hy 1 (by omega)
  · simpa [decodePixel] using
      captureX11_getElem? dims img x y hx hy 2 (by omega)

/-- C1 witness: the theorem evaluated on a concrete 2x2 image; pixel (1, 1)
is `0x04080C`, whose red byte is 4. -/
theorem variantC_normalized_buffer_witness :
    (CaptureScreenFrameX11 ⟨2, 2⟩ imgW).length = 2 * 2 * 3 ∧
    (CaptureScreenFrameX11 ⟨2, 2⟩ imgW)[(1 * 2 + 1) * 3]? = some 4 := by
  obtain ⟨hlen, hpix⟩ := variantC_normalized_buffer ⟨2, 2⟩ imgW
  refine ⟨hlen, ?_⟩
  have h := (hpix 1 1 (by decide) (by decide)).1
  rw [h]
  decide

/-- C2: a `getNextFrame()` invocation whose native capture fails leaves the
frame counter unchanged (the crash propagates from line 154, before the
line-155 increment), and a buffer is only ever returned by fully successful
invocations, always of the full `width * height * 3` size — never partially
filled. -/
theorem failed_getNextFrame_leaves_counter (env : X11Env) (c : Int) :
    (∀ e, (GetNextFrame env c).1 = .error e → (GetNextFrame env c).2 = c) ∧
    (∀ srv frame, env.display = some srv →
      (GetNextFrame env c).1 = .ok frame →
      frame.length = srv.screenWidth * srv.screenHeight * 3) := by
  constructor
  · intro e herr
    rw [getNextFrame_fst] at herr
    rw [getNextFrame_of_error env c e herr]
  · intro srv frame hdisp hok
    rw [getNextFrame_fst, captureFrame_display_some env srv hdisp] at hok
    cases himg : srv.image with
    | none => rw [himg] at hok; exact absurd hok (by simp)
    | some img =>
      rw [himg] at hok
      have hfr : CaptureScreenFrameX11 ⟨srv.screenWidth, srv.screenHeight⟩ img
          = frame := by
        exact Except.ok.inj hok
      rw [← hfr, captureX11_length]

/-- C2 witness: with no display server the call fails and the counter stays
at 5; in the all-success environment the returned 1x1 buffer has the full
3-byte size. -/
theorem failed_getNextFrame_leaves_counter_witness :
    (GetNextFrame ⟨none⟩ 5).2 = 5 ∧ ([0, 0, 0] : List Nat).length = 1 * 1 * 3 := by
  have herr : (GetNextFrame (⟨none⟩ : X11Env) 5).1 = .error .nullDisplayDeref :=
    rfl
  have hok : (GetNextFrame envOK 0).1 = .ok [0, 0, 0] := rfl
  exact ⟨(failed_getNextFrame_leaves_counter ⟨none⟩ 5).1 .nullDisplayDeref herr,
    (failed_getNextFrame_leaves_counter envOK 0).2 ⟨1, 1, some imgOK⟩ [0, 0, 0]
      rfl hok⟩

/-- C3 counterexample: the counter is a 32-bit `int`; after 2^31 successful
`getNextFrame()` calls from process start it has wrapped to -2^31 instead of
equalling its initial value plus 2^31, so it is not monotonically
non-decreasing with an exact `+N` law over every sequence. -/
theorem counter_not_monotone_at_wrap :
    (CaptureFrame envOK).isOk = true ∧
    runOps initialFramesCount
        (List.replicate 2147483648 (NodeOp.getNextFrame envOK)) ≠
      initialFramesCount + 2147483648 := by
  refine ⟨rfl, ?_⟩
  have h0 : initialFramesCount = (0 : Int) := rfl
  rw [h0, runOps_replicate_capture envOK rfl, iterate_increment_from_zero]
  decide

/-- C3 (amended): the counter is a single process-wide integer initialized
to zero at process start and never reset; every operation either preserves
it or applies the wrapped increment, so it is monotonically non-decreasing
and any N successful `getNextFrame()` calls add exactly N — as long as the
value stays below INT_MAX = 2^31 - 1 (the 32-bit counter wraps there). -/
theorem counter_monotone_until_wrap :
    initialFramesCount = 0 ∧
    (∀ (c : Int) (op : NodeOp), -2147483648 ≤ c → c < 2147483647 →
      c ≤ stepOp c op) ∧
    (∀ (env : X11Env) (c : Int) (n : Nat),
      (CaptureFrame env).isOk = true → -2147483648 ≤ c →
      c + n ≤ 2147483647 →
      runOps c (List.replicate n (NodeOp.getNextFrame env)) = c + n) := by
  refine ⟨rfl, ?_, ?_⟩
  · intro c op h1 h2
    cases op with
    | getNextFrame env =>
      show c ≤ (GetNextFrame env c).2
      cases h : CaptureFrame env with
      | ok frame =>
        rw [getNextFrame_of_ok env c frame h]
        show c ≤ IncrementFrameCount c
        rw [increment_no_wrap c h1 h2]
        omega
      | error e =>
        rw [getNextFrame_of_error env c e h]
    | getFramesCount => exact le_refl c
    | getScreenDimensions env => exact le_refl c
  · intro env c n hok h1 h2
    rw [runOps_replicate_capture env hok]
    exact iterate_increment_no_wrap n c h1 h2

/-- C3 witness: two successful calls from a zero counter add exactly two,
and a read leaves the counter in place. -/
theorem counter_monotone_until_wrap_witness :
    runOps 0 (List.replicate 2 (NodeOp.getNextFrame envOK)) = 0 + (2 : Nat) ∧
    (0 : Int) ≤ stepOp 0 NodeOp.getFramesCount := by
  exact ⟨counter_monotone_until_wrap.2.2 envOK 0 2 rfl (by decide) (by decide),
    counter_monotone_until_wrap.2.1 0 NodeOp.getFramesCount (by decide)
      (by decide)⟩

/-- C4: Variant A (Win32) sizes its buffer with the 4-byte-aligned row
stride `((width*24+31)/32)*4` — not `width*3` (they differ already at
width 1) — for a total of stride*height bytes; the header requests a
top-down image via a negative `biHeight` at 24 bits (3 bytes) per pixel, and
each pixel's bytes are laid out in B, G, R order at its row's stride
offset. -/
theorem variantA_stride_layout (dims : ScreenDimensions) (scr : WinScreen) :
    (CaptureScreenFrameWin32 dims scr).length =
        (dims.width * 24 + 31) / 32 * 4 * dims.height ∧
    (mkBitmapInfoHeader dims).biHeight = -(dims.height : Int) ∧
    (mkBitmapInfoHeader dims).biBitCount = 24 ∧
    dwBmpSize ⟨1, 1⟩ ≠ 1 * 3 * 1 ∧
    ∀ x y : Nat, x < dims.width → y < dims.height →
      (CaptureScreenFrameWin32 dims scr)[y * ((dims.width * 24 + 31) / 32 * 4)
          + x * 3]? = some (scr.blue x y % 256) ∧
      (CaptureScreenFrameWin32 dims scr)[y * ((dims.width * 24 + 31) / 32 * 4)
          + (x * 3 + 1)]? = some (scr.green x y % 256) ∧
      (CaptureScreenFrameWin32 dims scr)[y * ((dims.width * 24 + 31) / 32 * 4)
          + (x * 3 + 2)]? = some (scr.red x y % 256) := by
  refine ⟨captureWin32_length dims scr, rfl, rfl, by decide,
    fun x y hx hy => ⟨?_, ?_, ?_⟩⟩
  · simpa using captureWin32_getElem? dims scr x y 0 hx hy (by omega)
  · simpa using captureWin32_getElem? dims scr x y 1 hx hy (by omega)
  · simpa using captureWin32_getElem? dims scr x y 2 hx hy (by omega)

/-- C4 witness: on a 2x2 screen the stride is 8, the buffer holds 16 bytes,
and the blue byte of pixel (1, 1) sits at offset 8 + 3 = 11. -/
theorem variantA_stride_layout_witness :
    (CaptureScreenFrameWin32 ⟨2, 2⟩ scrW).length = 16 ∧
    (CaptureScreenFrameWin32 ⟨2, 2⟩ scrW)[(11 : Nat)]? = some 12 := by
  obtain ⟨hlen, _, _, _, hpix⟩ := variantA_stride_layout ⟨2, 2⟩ scrW
  constructor
  · rw [hlen]
    decide
  · have h := (hpix 1 1 (by decide) (by decide)).1
    have hidx : 1 * (((2 : Nat) * 24 + 31) / 32 * 4) + 1 * 3 = 11 := by decide
    rw [hidx] at h
    rw [h]
    decide

/-- C5: the Variant B (macOS) buffer length is the native image's byte
length, taken directly from the copied data provider; it does not depend on
the queried dimensions and is not computed as `width * height * 3` (a 2x2
query with a 16-byte native image returns 16 bytes, not 12). -/
theorem variantB_length_from_native (image : CGImageData) :
    (∀ dims : ScreenDimensions,
      (CaptureScreenFrameApple dims image).length = image.bytes.length) ∧
    (∀ d1 d2 : ScreenDimensions,
      CaptureScreenFrameApple d1 image = CaptureScreenFrameApple d2 image) ∧
    (CaptureScreenFrameApple ⟨2, 2⟩
        ⟨List.replicate 16 0, 2, 2⟩).length ≠ 2 * 2 * 3 := by
  exact ⟨fun _ => rfl, fun _ _ => rfl, by decide⟩

/-- C6 counterexample: starting from a fresh process, 2^31 - 1 successful
sequential captures bring the counter to INT_MAX; launching 8 concurrent
successful `getNextFrame()` calls from there wraps the 32-bit counter, which
ends at INT_MIN + 7 — the counter does not increase by the number of
successes. -/
theorem concurrent_increase_wraps :
    runOps initialFramesCount
        (List.replicate 2147483647 (NodeOp.getNextFrame envOK)) =
      2147483647 ∧
    successCount (fun _ => envOK) 8 = 8 ∧
    runConcurrent (fun _ => envOK) 2147483647 [0, 1, 2, 3, 4, 5, 6, 7] ≠
      2147483647 + (successCount (fun _ => envOK) 8 : Int) := by
  refine ⟨?_, by decide, ?_⟩
  · have h0 : initialFramesCount = (0 : Int) := rfl
    rw [h0, runOps_replicate_capture envOK rfl, iterate_increment_from_zero]
    decide
  · rw [runConcurrent_perm (fun _ => envOK) 8 2147483647 _ (by decide)]
    decide

/-- C6 (amended): each concurrent `getNextFrame()` call's counter update is
one atomic fetch-and-increment, so every schedule of K concurrent calls
applies exactly one increment per successful capture — no lost updates —
and `getFramesCount()` increases by exactly the number of successes whenever
the 32-bit counter does not overflow INT_MAX. -/
theorem concurrent_no_lost_updates (envs : Nat → X11Env) (K : Nat) (c : Int)
    (sched : List Nat) (hperm : sched.Perm (List.range K))
    (h1 : -2147483648 ≤ c) (h2 : c + successCount envs K ≤ 2147483647) :
    runConcurrent envs c sched = c + successCount envs K := by
  rw [runConcurrent_perm envs K c sched hperm]
  exact iterate_increment_no_wrap (successCount envs K) c h1 h2

/-- C6 witness: 8 concurrent all-successful calls under an arbitrary
interleaving add exactly 8 to a zero counter. -/
theorem concurrent_no_lost_updates_witness :
    successCount (fun _ => envOK) 8 = 8 ∧
    runConcurrent (fun _ => envOK) 0 [3, 1, 4, 0, 5, 2, 7, 6] =
      0 + (successCount (fun _ => envOK) 8 : Int) := by
  exact ⟨by decide,
    concurrent_no_lost_updates (fun _ => envOK) 8 0 [3, 1, 4, 0, 5, 2, 7, 6]
      (by decide) (by decide) (by decide)⟩

/-- C7 counterexample: the display query performs no validation — when the
OS reports a zero screen width the call still succeeds and returns width 0,
which is not strictly positive. -/
theorem dims_not_validated_positive :
    GetScreenDimensionsX11 ⟨some ⟨0, 768, none⟩⟩ =
      .ok ⟨0, 768⟩ ∧
    ¬ 0 < (ScreenDimensions.mk 0 768).width := by
  exact ⟨rfl, by decide⟩

/-- C7 (amended): every successful `getScreenDimensions()` call returns
exactly the OS-reported screen width and height, unvalidated; both are
strictly positive whenever the OS reports positive values. -/
theorem dims_match_os_report (env : X11Env) (srv : X11Server)
    (hdisp : env.display = some srv) :
    GetScreenDimensionsX11 env = .ok ⟨srv.screenWidth, srv.screenHeight⟩ ∧
    (0 < srv.screenWidth → 0 < srv.screenHeight →
      ∀ d, GetScreenDimensionsX11 env = .ok d → 0 < d.width ∧ 0 < d.height) := by
  have hq : GetScreenDimensionsX11 env
      = .ok ⟨srv.screenWidth, srv.screenHeight⟩ := by
    unfold GetScreenDimensionsX11
    rw [hdisp]
  refine ⟨hq, fun hw hh d hd => ?_⟩
  rw [hq] at hd
  have : (⟨srv.screenWidth, srv.screenHeight⟩ : ScreenDimensions) = d :=
    Except.ok.inj hd
  rw [← this]
  exact ⟨hw, hh⟩

/-- C7 witness: on a 1x1 screen the query returns exactly 1x1, which is
positive. -/
theorem dims_match_os_report_witness :
    GetScreenDimensionsX11 envOK = .ok ⟨1, 1⟩ ∧
    0 < (ScreenDimensions.mk 1 1).width ∧
    0 < (ScreenDimensions.mk 1 1).height := by
  obtain ⟨hq, hp⟩ := dims_match_os_report envOK ⟨1, 1, some imgOK⟩ rfl
  exact ⟨hq, hp (by decide) (by decide) ⟨1, 1⟩ hq⟩

/-- C8: on every execution of the X11 capture in which the routine returns,
every acquired handle is released before the return, and the display query
acquires and releases its connection on every successful call; but on the
`XGetImage` failure path the routine crashes with the display connection
acquired and never released — the claim's failure-path release does not hold
on the code, which matches the spec's own must-fix note on undefined
behavior at native-API failure. -/
theorem capture_leaks_display_on_failed_XGetImage :
    (∀ (w h : Nat) (img : XImage) (dims : ScreenDimensions),
      ((CaptureScreenFrameX11Trace ⟨some ⟨w, h, some img⟩⟩ dims).2.released).Perm
        ((CaptureScreenFrameX11Trace ⟨some ⟨w, h, some img⟩⟩ dims).2.acquired)) ∧
    (∀ (w h : Nat) (oi : Option XImage),
      (GetScreenDimensionsX11Trace ⟨some ⟨w, h, oi⟩⟩).2.released =
        (GetScreenDimensionsX11Trace ⟨some ⟨w, h, oi⟩⟩).2.acquired) ∧
    (CaptureScreenFrameX11Trace ⟨some ⟨1, 1, none⟩⟩ ⟨1, 1⟩).1 =
        .error .nullXImageDeref ∧
    (CaptureScreenFrameX11Trace ⟨some ⟨1, 1, none⟩⟩ ⟨1, 1⟩).2.acquired =
        [.displayConnection] ∧
    (CaptureScreenFrameX11Trace ⟨some ⟨1, 1, none⟩⟩ ⟨1, 1⟩).2.released = [] := by
  refine ⟨fun w h img dims => ?_, fun w h oi => rfl, rfl, rfl, rfl⟩
  show ([NativeHandle.ximageData, NativeHandle.displayConnection]).Perm
    [NativeHandle.displayConnection, NativeHandle.ximageData]
  decide

/-- C9: `getScreenDimensions()` re-queries the per-call display state (no
caching: after any earlier call, a call against the current environment
returns exactly that environment's query result) and has no effect on the
frame counter read by `getFramesCount()`. -/
theorem getScreenDimensions_no_side_effects (env1 env2 : X11Env) (c : Int) :
    (GetScreenDimensionsNode env2 c).2 = c ∧
    GetFramesCount ((GetScreenDimensionsNode env2 c).2) = (c, c) ∧
    (GetScreenDimensionsNode env2 ((GetScreenDimensionsNode env1 c).2)).1 =
      GetScreenDimensionsX11 env2 ∧
    (∀ srv, env2.display = some srv →
      (GetScreenDimensionsNode env2 c).1 =
        .ok ⟨srv.screenWidth, srv.screenHeight⟩) := by
  refine ⟨rfl, rfl, rfl, fun srv hs => ?_⟩
  show GetScreenDimensionsX11 env2 = _
  unfold GetScreenDimensionsX11
  rw [hs]

/-- C9 witness: querying the 1x1 environment at counter 7 returns its
dimensions and leaves the counter at 7. -/
theorem getScreenDimensions_no_side_effects_witness :
    (GetScreenDimensionsNode envOK 7).2 = 7 ∧
    (GetScreenDimensionsNode envOK 7).1 = .ok ⟨1, 1⟩ := by
  obtain ⟨h1, _, _, h4⟩ := getScreenDimensions_no_side_effects ⟨none⟩ envOK 7
  exact ⟨h1, h4 ⟨1, 1, some imgOK⟩ rfl⟩

/-- C10 counterexample: at counter INT_MAX a returning `getNextFrame()` call
wraps the 32-bit counter to INT_MIN instead of adding exactly one. -/
theorem increment_wraps_at_INT_MAX :
    (GetNextFrame envOK 2147483647).1.isOk = true ∧
    (GetNextFrame envOK 2147483647).2 ≠ 2147483647 + 1 := by
  exact ⟨rfl, by decide⟩

/-- C10 (amended): every returning `getNextFrame()` invocation applies the
wrapped counter increment exactly once, unconditionally — independent of the
captured buffer's size or contents; the counter never stays unchanged, and
advances by exactly one whenever it is below INT_MAX (at INT_MAX it wraps
to INT_MIN). -/
theorem getNextFrame_always_increments (env : X11Env) (c : Int)
    (frame : List Nat) (hok : (GetNextFrame env c).1 = .ok frame) :
    (GetNextFrame env c).2 = IncrementFrameCount c ∧
    (-2147483648 ≤ c → c < 2147483647 → (GetNextFrame env c).2 = c + 1) ∧
    (-2147483648 ≤ c → c ≤ 2147483647 → (GetNextFrame env c).2 ≠ c) := by
  have hcap : CaptureFrame env = .ok frame := by
    rw [← getNextFrame_fst env c]
    exact hok
  have h2 : (GetNextFrame env c).2 = IncrementFrameCount c := by
    rw [getNextFrame_of_ok env c frame hcap]
  refine ⟨h2, fun hl hu => ?_, fun hl hu => ?_⟩
  · rw [h2, increment_no_wrap c hl hu]
  · rw [h2]
    unfold IncrementFrameCount
    omega

/-- C10 witness: a successful call at counter 5 returns and moves the
counter to 6. -/
theorem getNextFrame_always_increments_witness :
    (GetNextFrame envOK 5).2 = 5 + 1 := by
  exact (getNextFrame_always_increments envOK 5 [0, 0, 0] rfl).2.1
    (by decide) (by decide)

end ScreenRecorder
